import Mathlib

/-!
Shallow embedding of the O2Monitor core (src/ble_reader.py, src/avaps_monitor.py,
src/state_machine.py, src/alerting.py, src/main.py) and proofs about it.

Bytes are modelled as `Nat` (every byte handed to these functions is < 256 in the
source; where the source masks with `& 0xFF` the embedding does `% 256`).
Wall-clock instants are modelled as `ℚ` (Python floats from `time.time()` /
`datetime.now()`; only comparisons and subtraction are used).

The repository's `src/models.py` is not present in the inspected tree; the plain
dataclasses/enums it declares (`OxiReading`, `AVAPSState`, `MonitorState`) are
reconstructed here from their construction and use sites and from the spec's
data-model section.
-/

namespace O2Monitor

/-! ### Command CRC and command encoding (src/ble_reader.py, `_ble_worker.calc_crc`
and `_ble_worker.build_command`) -/

/-- One step of `calc_crc`: `chk = (crc ^ b) & 0xFF`, reset `crc = 0`, then XOR in
the eight constants gated on bits 0..7 of `chk`. -/
def crcStep (crc b : Nat) : Nat :=
  let chk := (Nat.xor crc b) % 256
  let t0 := if chk.testBit 0 then 0x07 else 0
  let t1 := if chk.testBit 1 then 0x0e else 0
  let t2 := if chk.testBit 2 then 0x1c else 0
  let t3 := if chk.testBit 3 then 0x38 else 0
  let t4 := if chk.testBit 4 then 0x70 else 0
  let t5 := if chk.testBit 5 then 0xe0 else 0
  let t6 := if chk.testBit 6 then 0xc7 else 0
  let t7 := if chk.testBit 7 then 0x89 else 0
  Nat.xor (Nat.xor (Nat.xor (Nat.xor (Nat.xor (Nat.xor (Nat.xor t0 t1) t2) t3) t4) t5) t6) t7

/-- `_ble_worker.calc_crc`: fold `crcStep` over the data starting from `crc = 0`. -/
def calcCrc (data : List Nat) : Nat :=
  data.foldl crcStep 0

/-- `_ble_worker.build_command`: header `[0xAA, cmd, 0xFF ^ cmd, 0,0,0,0]`
followed by the CRC of the header. -/
def buildCommand (cmd : Nat) : List Nat :=
  let pkt := [0xAA, cmd, Nat.xor 0xFF cmd, 0x00, 0x00, 0x00, 0x00]
  pkt ++ [calcCrc pkt]

/-! ### Packet framing (src/ble_reader.py, `_ble_worker.handle_notification`) -/

/-- The leading-garbage scan of `handle_notification`: drop bytes until the sync
byte `0x55` is at the front of the buffer. -/
def syncScan : List Nat → List Nat
  | [] => []
  | b :: rest => if b = 0x55 then b :: rest else syncScan rest

/-- `_ble_worker.handle_notification`: append the notification value to the
buffer, scan to the sync byte, and if at least `8 + payload_length` bytes are
buffered (little-endian 16-bit payload length at offsets 5-6) extract that
packet. Returns the new buffer and the extracted packet, if any. (The source
then forwards the packet to `process_reading` only when `payload_length = 13`;
that step is modelled separately by `processReading`.) -/
def handleNotification (buf value : List Nat) : List Nat × Option (List Nat) :=
  let buf1 := syncScan (buf ++ value)
  if buf1.length < 8 then (buf1, none)
  else
    let payLen := buf1.getD 5 0 + 256 * buf1.getD 6 0
    let totalLen := payLen + 8
    if buf1.length < totalLen then (buf1, none)
    else (buf1.drop totalLen, some (buf1.take totalLen))

/-- Feed a sequence of notification fragments through `handleNotification`,
collecting every extracted packet in order. -/
def processFragments (buf : List Nat) : List (List Nat) → List (List Nat)
  | [] => []
  | f :: fs =>
    match handleNotification buf f with
    | (buf1, some pkt) => pkt :: processFragments buf1 fs
    | (buf1, none) => processFragments buf1 fs

/-- A valid packet in the sense of the wire format: sync byte `0x55` first,
total size exactly `8 +` the little-endian 16-bit payload length stored at
offsets 5-6. -/
def ValidPacket (p : List Nat) : Prop :=
  p.head? = some 0x55 ∧ p.length = 8 + (p.getD 5 0 + 256 * p.getD 6 0)

instance (p : List Nat) : Decidable (ValidPacket p) := by
  unfold ValidPacket
  infer_instance

/-! ### Reading payloads and the rate limiter (src/ble_reader.py,
`_ble_worker.process_reading` and `CheckmeO2Reader._handle_worker_message`) -/

/-- The `reading` message the worker puts on the queue (`reading_data` in
`process_reading`): timestamp plus the decoded payload fields. -/
structure WireReading where
  timestamp : ℚ
  spo2 : Nat
  heartRate : Nat
  batteryLevel : Nat
  movement : Nat
deriving DecidableEq

/-- `_ble_worker.process_reading`: decode a reading payload, discard sensor-off
(`flag = 0xFF`), idle (`flag = 0` with SpO2 and HR both 0), and rate-limited
readings (less than one second after the last emitted reading), otherwise emit
a `WireReading` and advance `last_reading_time` to `now`. Returns the new
`last_reading_time` and the emitted message, if any. -/
def processReading (lastReadingTime : ℚ) (payload : List Nat) (now : ℚ) :
    ℚ × Option WireReading :=
  if payload.length < 10 then (lastReadingTime, none)
  else
    let spo2 := payload.getD 0 0
    let hr := payload.getD 1 0
    let flag := payload.getD 2 0
    let battery := payload.getD 7 0
    let movement := payload.getD 9 0
    if flag = 0xFF then (lastReadingTime, none)
    else if flag = 0 ∧ spo2 = 0 ∧ hr = 0 then (lastReadingTime, none)
    else if now - lastReadingTime < 1 then (lastReadingTime, none)
    else (now, some ⟨now, spo2, hr, battery, movement⟩)

/-- Run the worker's reading pipeline over a sequence of (payload, wall-clock
time) events, threading `last_reading_time` and collecting the emitted
readings in order. -/
def runWorker (lastReadingTime : ℚ) : List (List Nat × ℚ) → ℚ × List WireReading
  | [] => (lastReadingTime, [])
  | (payload, t) :: evs =>
    match processReading lastReadingTime payload t with
    | (last1, some r) =>
      let rest := runWorker last1 evs
      (rest.1, r :: rest.2)
    | (last1, none) => runWorker last1 evs

/-- `OxiReading` as constructed throughout the source (the dataclass itself
lives in the absent `src/models.py`; its fields are those set at every
construction site and in the spec's data model). -/
structure OxiReading where
  timestamp : ℚ
  spo2 : Nat
  heartRate : Nat
  batteryLevel : Nat
  movement : Nat
  isValid : Bool
deriving DecidableEq

/-- The `reading`-message branch of `CheckmeO2Reader._handle_worker_message`:
every reading message from the worker becomes an `OxiReading` with
`is_valid = True`. -/
def handleWorkerReading (msg : WireReading) : OxiReading :=
  ⟨msg.timestamp, msg.spo2, msg.heartRate, msg.batteryLevel, msg.movement, true⟩

/-! ### Supervisor restart behaviour (src/ble_reader.py `CheckmeO2Reader.run`
and src/main.py `O2MonitorApp._run_ble_with_reconnect`) -/

/-- Delay, in seconds, that `CheckmeO2Reader.run` applies before respawning the
worker after its n-th consecutive death. In the source the loop body is: if
`self._process` is not alive, log a warning and call `self._start_worker()`
immediately - there is no sleep, no consecutive-failure counter, and no backoff
schedule anywhere in the class, so the delay is 0 for every n. -/
def restartDelaySeconds (_n : Nat) : Nat := 0

/-- `O2MonitorApp._run_ble_with_reconnect` (src/main.py): fixed delay slept
when the whole `ble_reader.run()` call returns, before calling it again
(`reconnect_delay = 5`). -/
def reconnectDelaySeconds : Nat := 5

/-- Modelled from the spec: the exponential backoff schedule the spec claims
for worker respawns (attempt 1 to 5s, 2 to 15s, 3 to 30s, 4 and later to 60s
capped). Stated from the spec's words for comparison with
`restartDelaySeconds`; no such schedule exists in the source. -/
def specBackoffSeconds (n : Nat) : Nat :=
  if n ≤ 1 then 5
  else if n = 2 then 15
  else if n = 3 then 30
  else 60

/-! ### AVAPS power monitor (src/avaps_monitor.py, `AVAPSMonitor.get_state`) -/

/-- The `AVAPSState` enum (declared in the absent `src/models.py`; its three
members `ON`, `OFF`, `UNKNOWN` are the ones used throughout the source and the
spec's `PowerState`). -/
inductive AVAPSState where
  | on
  | off
  | unknown
deriving DecidableEq

/-- One call of `AVAPSMonitor.get_state`. `sample` is `some p` when
`get_power_watts()` succeeds with `p` watts and `none` when it raises
`ConnectionError`. On success: `ON` if `p > on_threshold`, `OFF` if
`p <= off_threshold`, otherwise `_current_state` is kept (hysteresis). On
failure the except branch assigns `_current_state = UNKNOWN` and returns
`UNKNOWN`. The result is the new value of `_current_state`, which is also the
value returned to the caller. -/
def getState (state : AVAPSState) (onThreshold offThreshold : ℚ)
    (sample : Option ℚ) : AVAPSState :=
  match sample with
  | none => AVAPSState.unknown
  | some power =>
    if onThreshold < power then AVAPSState.on
    else if power ≤ offThreshold then AVAPSState.off
    else state

/-- Run `get_state` over a sequence of samples (`some` = successful wattage,
`none` = query failure), returning the final retained state and the list of
states reported for each call. -/
def runPower (state : AVAPSState) (onThreshold offThreshold : ℚ) :
    List (Option ℚ) → AVAPSState × List AVAPSState
  | [] => (state, [])
  | s :: ss =>
    let st1 := getState state onThreshold offThreshold s
    let rest := runPower st1 onThreshold offThreshold ss
    (rest.1, st1 :: rest.2)

/-! ### Monitoring state machine (src/state_machine.py,
`O2MonitorStateMachine`) -/

/-- The `MonitorState` enum (declared in the absent `src/models.py`; the seven
members are the ones used throughout `state_machine.py` and the spec). -/
inductive MonitorState where
  | initializing
  | normal
  | therapyActive
  | lowSpo2Warning
  | alarm
  | disconnected
  | silenced
deriving DecidableEq

/-- The configuration fields `_evaluate_state` reads:
`config.thresholds.spo2.alarm_level` and
`config.thresholds.spo2.alarm_duration_seconds`. -/
structure SMConfig where
  alarmLevel : Nat
  alarmDurationSeconds : ℚ
deriving DecidableEq

/-- The mutable fields of `O2MonitorStateMachine` touched by `_evaluate_state`,
`_evaluate_disconnected`, `_evaluate_low_spo2` and `_handle_state_transition`. -/
structure SMState where
  currentState : MonitorState
  currentReading : Option OxiReading
  avapsState : AVAPSState
  lowSpo2Start : Option ℚ
  alarmAlertId : Option String
  disconnectStart : Option ℚ
  disconnectAlertSent : Bool
deriving DecidableEq

/-- Externally visible calls a tick makes to the alert manager:
`_trigger_disconnect_alert`, `_trigger_spo2_alarm` (which records the new
alert id in `_alarm_alert_id`), and `alert_manager.resolve_alert`. -/
inductive SMEvent where
  | disconnectAlert
  | spo2Alarm (id : String)
  | resolveAlert (id : String)
deriving DecidableEq

/-- `O2MonitorStateMachine._evaluate_disconnected`: record the disconnect start
on first entry, fire the disconnect alert once after
`DISCONNECT_ALERT_DELAY = 180` seconds of continuous disconnection, and return
`DISCONNECTED`. -/
def evaluateDisconnected (s : SMState) (now : ℚ) :
    SMState × MonitorState × List SMEvent :=
  let s1 := match s.disconnectStart with
    | none => { s with disconnectStart := some now }
    | some _ => s
  let start := match s.disconnectStart with
    | none => now
    | some t => t
  if 180 ≤ now - start ∧ s1.disconnectAlertSent = false then
    ({ s1 with disconnectAlertSent := true }, MonitorState.disconnected,
      [SMEvent.disconnectAlert])
  else
    (s1, MonitorState.disconnected, [])

/-- `O2MonitorStateMachine._evaluate_low_spo2`: start `_low_spo2_start` on the
first low reading (state `LOW_SPO2_WARNING`); once
`alarm_duration_seconds` have elapsed, trigger the SpO2 alarm (recording the
fresh alert id in `_alarm_alert_id`) if not already triggered and return
`ALARM`. -/
def evaluateLowSpo2 (s : SMState) (now : ℚ) (cfg : SMConfig) (freshId : String) :
    SMState × MonitorState × List SMEvent :=
  match s.lowSpo2Start with
  | none =>
    ({ s with lowSpo2Start := some now }, MonitorState.lowSpo2Warning, [])
  | some t0 =>
    if cfg.alarmDurationSeconds ≤ now - t0 then
      match s.alarmAlertId with
      | none =>
        ({ s with alarmAlertId := some freshId }, MonitorState.alarm,
          [SMEvent.spo2Alarm freshId])
      | some _ => (s, MonitorState.alarm, [])
    else
      (s, MonitorState.lowSpo2Warning, [])

/-- `O2MonitorStateMachine._evaluate_state`: disconnect check first (link down,
or reading older than `STALE_READING_THRESHOLD = 30` seconds), then
`INITIALIZING` without a valid reading, then `THERAPY_ACTIVE` when AVAPS is on,
`SILENCED` when alerts are silenced, the low-SpO2 path when
`spo2 < alarm_level`, and otherwise `NORMAL` (clearing `_low_spo2_start`).
`freshId` stands for the uuid generated if a new SpO2 alarm is triggered. -/
def evaluateState (s : SMState) (now : ℚ) (connected silenced : Bool)
    (cfg : SMConfig) (freshId : String) : SMState × MonitorState × List SMEvent :=
  if connected = false then evaluateDisconnected s now
  else
    match s.currentReading with
    | none => (s, MonitorState.initializing, [])
    | some r =>
      if 30 < now - r.timestamp then evaluateDisconnected s now
      else if r.isValid = false then (s, MonitorState.initializing, [])
      else if s.avapsState = AVAPSState.on then (s, MonitorState.therapyActive, [])
      else if silenced = true then (s, MonitorState.silenced, [])
      else if r.spo2 < cfg.alarmLevel then evaluateLowSpo2 s now cfg freshId
      else ({ s with lowSpo2Start := none }, MonitorState.normal, [])

/-- `O2MonitorStateMachine._handle_state_transition`: on leaving
`DISCONNECTED`, clear the disconnect tracking; on leaving `ALARM`, resolve the
open alarm alert and clear `_alarm_alert_id`; on entering `THERAPY_ACTIVE`,
clear `_low_spo2_start` and resolve the open alarm alert, if any. -/
def handleStateTransition (s : SMState) (oldState newState : MonitorState) :
    SMState × List SMEvent :=
  let s1 :=
    if oldState = MonitorState.disconnected ∧ newState ≠ MonitorState.disconnected then
      { s with disconnectStart := none, disconnectAlertSent := false }
    else s
  let step2 : SMState × List SMEvent :=
    if oldState = MonitorState.alarm ∧ newState ≠ MonitorState.alarm then
      match s1.alarmAlertId with
      | some i => ({ s1 with alarmAlertId := none }, [SMEvent.resolveAlert i])
      | none => (s1, [])
    else (s1, [])
  if newState = MonitorState.therapyActive then
    match step2.1.alarmAlertId with
    | some i =>
      ({ step2.1 with lowSpo2Start := none, alarmAlertId := none },
        step2.2 ++ [SMEvent.resolveAlert i])
    | none => ({ step2.1 with lowSpo2Start := none }, step2.2)
  else step2

/-- The state-evaluation part of `O2MonitorStateMachine._evaluation_cycle`:
run `_evaluate_state`, and when the result differs from `_current_state`, run
`_handle_state_transition` and then assign the new state. (The other steps of
the cycle - AVAPS polling, storing the reading, the `AlertEvaluator`,
heartbeat, daily cleanup - go to external collaborators and touch none of the
`SMState` fields.) -/
def evaluationTickCore (s : SMState) (now : ℚ) (connected silenced : Bool)
    (cfg : SMConfig) (freshId : String) : SMState × List SMEvent :=
  match evaluateState s now connected silenced cfg freshId with
  | (s1, newState, ev1) =>
    if newState ≠ s.currentState then
      match handleStateTransition s1 s.currentState newState with
      | (s2, ev2) => ({ s2 with currentState := newState }, ev1 ++ ev2)
    else (s1, ev1)

/-! ### Alert manager (src/alerting.py, `AlertManager.trigger_alarm`) -/

/-- The `Alert` fields `trigger_alarm` reads (dataclass declared in the absent
`src/models.py`; severities and alert types are reduced to strings, their
`.value`). -/
structure Alert where
  id : String
  alertType : String
  severity : String
  message : String
  spo2 : Option Nat
  heartRate : Option Nat
deriving DecidableEq

/-- The `AlertManager` state `trigger_alarm` touches: `_active_alerts`
(`alert_id` to `Alert`), `_pagerduty_keys` (`alert_id` to dedup key), and
whether the audio alarm is sounding. Maps are association lists with the
most recent insertion first. -/
structure AMState where
  activeAlerts : List (String × Alert)
  pagerdutyKeys : List (String × String)
  audioAlarmActive : Bool
deriving DecidableEq

/-- `AlertManager.trigger_alarm`. If `alert.id` is already in `_active_alerts`,
return the stored dedup key (or `none`) and change nothing. Otherwise record
the alert, start the audio alarm when not silenced and audio is configured,
and, when PagerDuty is configured, send the incident: `pdResponse` stands for
the dedup key `PagerDutyClient.trigger_incident` returns (`none` on failure),
stored in `_pagerduty_keys` when present. Returns the new state and the
function's return value. -/
def triggerAlarm (s : AMState) (alert : Alert) (silenced hasAudio hasPagerduty : Bool)
    (pdResponse : Option String) : AMState × Option String :=
  if (s.activeAlerts.lookup alert.id).isSome then
    (s, s.pagerdutyKeys.lookup alert.id)
  else
    let s1 := { s with activeAlerts := (alert.id, alert) :: s.activeAlerts }
    let s2 := if silenced = false ∧ hasAudio = true then
        { s1 with audioAlarmActive := true }
      else s1
    if hasPagerduty = true then
      match pdResponse with
      | some k => ({ s2 with pagerdutyKeys := (alert.id, k) :: s2.pagerdutyKeys }, some k)
      | none => (s2, none)
    else (s2, none)

/-! ### Helper lemmas -/

theorem syncScan_append_of_not_mem (g l : List Nat) (h : 0x55 ∉ g) :
    syncScan (g ++ l) = syncScan l := by
  induction g with
  | nil => rfl
  | cons b g ih =>
    have hb : b ≠ 0x55 := fun hb => h (hb ▸ List.mem_cons_self b g)
    have hg : 0x55 ∉ g := fun hm => h (List.mem_cons_of_mem b hm)
    simp only [List.cons_append, syncScan, if_neg hb]
    exact ih hg

theorem syncScan_of_head_sync (p : List Nat) (h : p.head? = some 0x55) :
    syncScan p = p := by
  cases p with
  | nil => simp at h
  | cons b rest =>
    have hb : b = 0x55 := by simpa using h
    simp [syncScan, hb]

theorem handleNotification_exact (g p : List Nat) (hg : 0x55 ∉ g)
    (hp : ValidPacket p) : handleNotification [] (g ++ p) = ([], some p) := by
  obtain ⟨hhead, hlen⟩ := hp
  unfold handleNotification
  rw [List.nil_append, syncScan_append_of_not_mem g p hg, syncScan_of_head_sync p hhead]
  have hn8 : ¬ p.length < 8 := by omega
  have htot : p.getD 5 0 + 256 * p.getD 6 0 + 8 = p.length := by omega
  rw [if_neg hn8]
  simp only [htot]
  rw [if_neg (lt_irrefl p.length)]
  simp [List.drop_length, List.take_length]

theorem evaluateDisconnected_state (s : SMState) (now : ℚ) :
    (evaluateDisconnected s now).2.1 = MonitorState.disconnected := by
  simp only [evaluateDisconnected]
  repeat' split <;> rfl

theorem processReading_below_interval (last : ℚ) (p : List Nat) (t : ℚ)
    (h : t - last < 1) : processReading last p t = (last, none) := by
  simp only [processReading, if_pos h]
  repeat' split
  all_goals rfl

theorem processReading_result (last : ℚ) (p : List Nat) (t : ℚ) :
    processReading last p t = (last, none) ∨
    ∃ r, processReading last p t = (t, some r) := by
  simp only [processReading]
  repeat' split
  all_goals first | exact Or.inl rfl | exact Or.inr ⟨_, rfl⟩

theorem runWorker_no_emit (last : ℚ) (evs : List (List Nat × ℚ))
    (h : ∀ e ∈ evs, e.2 < last + 1) : runWorker last evs = (last, []) := by
  induction evs with
  | nil => rfl
  | cons e evs ih =>
    obtain ⟨p, t⟩ := e
    have ht : t - last < 1 := by
      have := (h (p, t) (List.mem_cons_self _ _))
      simpa using by linarith
    unfold runWorker
    rw [processReading_below_interval last p t ht]
    exact ih (fun e he => h e (List.mem_cons_of_mem _ he))

/-! ### Claim theorems -/

/-- C2, counterexample: the claim says the supervisor applies a 5s delay before
respawning after the 1st consecutive worker death; in the source
(`CheckmeO2Reader.run`) the worker is respawned immediately, so the delay is 0,
not the claimed 5 seconds. -/
theorem restart_delay_not_backoff :
    restartDelaySeconds 1 = 0 ∧ specBackoffSeconds 1 = 5 ∧
    restartDelaySeconds 1 ≠ specBackoffSeconds 1 := by decide

/-- C2, amended: when the link-driver worker process exits,
`CheckmeO2Reader.run` respawns it immediately - the delay before respawning is
0 seconds for every consecutive failure count, with no backoff schedule; the
separate outer reconnect loop in `main.py` sleeps a fixed 5 seconds only when
the whole `run()` call returns. -/
theorem restart_immediate_no_backoff :
    (∀ n : Nat, restartDelaySeconds n = 0) ∧ reconnectDelaySeconds = 5 :=
  ⟨fun _ => rfl, rfl⟩

/-- C3, counterexample: the claim says a query failure returns `Unknown`
without mutating the hysteresis state, so that after `On` is established, a
failure followed by an in-band sample (2.5 W with thresholds on=3, off=2)
yields `On` again. In the source (`AVAPSMonitor.get_state`) the except branch
assigns `_current_state = UNKNOWN`, so the post-failure in-band sample yields
`Unknown`, not `On`. -/
theorem getState_failure_not_transparent :
    (runPower AVAPSState.unknown 3 2 [some 4, none, some (5/2)]).2
      = [AVAPSState.on, AVAPSState.unknown, AVAPSState.unknown] ∧
    AVAPSState.unknown ≠ AVAPSState.on := by
  refine ⟨by norm_num +decide [runPower, getState], by decide⟩

/-- C3, amended: a query failure makes `get_state` return `Unknown` and also
resets the retained hysteresis state to `Unknown`, so a subsequent successful
sample lying strictly between `off_threshold` and `on_threshold` yields
`Unknown` rather than the state established before the failure. -/
theorem getState_failure_resets_state (state : AVAPSState) (onT offT p : ℚ)
    (h1 : offT < p) (h2 : p ≤ onT) :
    getState state onT offT none = AVAPSState.unknown ∧
    getState (getState state onT offT none) onT offT (some p)
      = AVAPSState.unknown := by
  have h3 : ¬ onT < p := not_lt.mpr h2
  have h4 : ¬ p ≤ offT := not_le.mpr h1
  exact ⟨rfl, by simp [getState, h3, h4]⟩

/-- Witness for `getState_failure_resets_state` at `On`, thresholds on=3,
off=2, in-band sample 2.5 W. -/
theorem getState_failure_resets_state_witness :
    (2:ℚ) < 5/2 ∧ (5/2:ℚ) ≤ 3 ∧
    (getState AVAPSState.on 3 2 none = AVAPSState.unknown ∧
      getState (getState AVAPSState.on 3 2 none) 3 2 (some (5/2))
        = AVAPSState.unknown) :=
  ⟨by norm_num, by norm_num,
    getState_failure_resets_state AVAPSState.on 3 2 (5/2) (by norm_num) (by norm_num)⟩

/-- C4: with disjoint thresholds (`off_threshold ≤ on_threshold`), a successful
sample maps to `On` when strictly above `on_threshold`, to `Off` when at most
`off_threshold`, and retains the previously reported state when strictly
between the two; the sample sequence [1, 2.5, 4, 2.5, 1] W with on=3, off=2
yields the state sequence Off, Off, On, On, Off. -/
theorem getState_hysteresis (state : AVAPSState) (onT offT p : ℚ)
    (hth : offT ≤ onT) :
    (onT < p → getState state onT offT (some p) = AVAPSState.on) ∧
    (p ≤ offT → getState state onT offT (some p) = AVAPSState.off) ∧
    (offT < p → p ≤ onT → getState state onT offT (some p) = state) ∧
    (runPower AVAPSState.unknown 3 2 [some 1, some (5/2), some 4, some (5/2), some 1]).2
      = [AVAPSState.off, AVAPSState.off, AVAPSState.on, AVAPSState.on,
          AVAPSState.off] := by
  refine ⟨fun h => by simp [getState, h], fun h => ?_, fun h1 h2 => ?_, ?_⟩
  · have hn : ¬ onT < p := not_lt.mpr (le_trans h hth)
    simp [getState, hn, h]
  · have hn : ¬ onT < p := not_lt.mpr h2
    have hn2 : ¬ p ≤ offT := not_le.mpr h1
    simp [getState, hn, hn2]
  · norm_num +decide [runPower, getState]

/-- Witness for `getState_hysteresis` at state `Off`, thresholds on=3, off=2,
sample 2.5 W. -/
theorem getState_hysteresis_witness :
    (2:ℚ) ≤ 3 ∧
    (((3:ℚ) < 5/2 → getState AVAPSState.off 3 2 (some (5/2)) = AVAPSState.on) ∧
      ((5/2:ℚ) ≤ 2 → getState AVAPSState.off 3 2 (some (5/2)) = AVAPSState.off) ∧
      ((2:ℚ) < 5/2 → (5/2:ℚ) ≤ 3 →
        getState AVAPSState.off 3 2 (some (5/2)) = AVAPSState.off) ∧
      (runPower AVAPSState.unknown 3 2
          [some 1, some (5/2), some 4, some (5/2), some 1]).2
        = [AVAPSState.off, AVAPSState.off, AVAPSState.on, AVAPSState.on,
            AVAPSState.off]) :=
  ⟨by norm_num, getState_hysteresis AVAPSState.off 3 2 (5/2) (by norm_num)⟩

/-- C7: the command CRC is a pure function of the input bytes; applied to the
reading-request header [0xAA, 0x17, 0xE8, 0, 0, 0, 0] it always returns the
fixed reference value 0x1b, and the encoded command for opcode 0x17 is exactly
that 7-byte header followed by that CRC byte. -/
theorem crc_fixed_value :
    calcCrc [0xAA, 0x17, 0xE8, 0, 0, 0, 0] = 0x1b ∧
    buildCommand 0x17 = [0xAA, 0x17, 0xE8, 0, 0, 0, 0, 0x1b] := by decide

/-- C5, counterexample: the claim says invalid/idle/sensor-off length-13
payloads are represented to consumers as a reading with `is_valid = false`
rather than omitted. In the source (`_ble_worker.process_reading`) a sensor-off
payload (flag byte 0xFF) and an idle payload (flag 0, SpO2 0, HR 0) are
discarded - no reading message is emitted at all. -/
theorem invalid_payload_omitted :
    (processReading 0 [90, 60, 0xFF, 0, 0, 0, 0, 80, 0, 3, 0, 0, 0] 100).2 = none ∧
    (processReading 0 [0, 0, 0, 0, 0, 0, 0, 80, 0, 3, 0, 0, 0] 100).2 = none := by
  constructor <;> rfl

/-- C5, amended: invalid/idle/sensor-off conditions decoded from a reading
payload are omitted by the worker - `process_reading` emits nothing for a
sensor-off payload (flag 0xFF) or an idle payload (flag 0 with SpO2 = 0 and
HR = 0) - and every reading message that does reach the parent is converted by
`_handle_worker_message` into an `OxiReading` with `is_valid = true`. -/
theorem invalid_payload_discarded (last now : ℚ) (p : List Nat) (m : WireReading)
    (hoff : p.getD 2 0 = 0xFF) :
    (processReading last p now).2 = none ∧
    (p.getD 2 0 = 0 ∧ p.getD 0 0 = 0 ∧ p.getD 1 0 = 0 →
      (processReading last p now).2 = none) ∧
    (handleWorkerReading m).isValid = true := by
  have hoff2 : p[2]?.getD 0 = 255 := by simpa using hoff
  refine ⟨?_, ?_, rfl⟩
  · simp [processReading, hoff2]
  · intro hidle
    simp [processReading, hoff2]

/-- Witness for `invalid_payload_discarded` at a concrete sensor-off
length-13 payload. -/
theorem invalid_payload_discarded_witness :
    ([90, 60, 0xFF, 0, 0, 0, 0, 80, 0, 3, 0, 0, 0] : List Nat).getD 2 0 = 0xFF ∧
    ((processReading 0 [90, 60, 0xFF, 0, 0, 0, 0, 80, 0, 3, 0, 0, 0] 100).2 = none ∧
      (([90, 60, 0xFF, 0, 0, 0, 0, 80, 0, 3, 0, 0, 0] : List Nat).getD 2 0 = 0 ∧
        ([90, 60, 0xFF, 0, 0, 0, 0, 80, 0, 3, 0, 0, 0] : List Nat).getD 0 0 = 0 ∧
        ([90, 60, 0xFF, 0, 0, 0, 0, 80, 0, 3, 0, 0, 0] : List Nat).getD 1 0 = 0 →
        (processReading 0 [90, 60, 0xFF, 0, 0, 0, 0, 80, 0, 3, 0, 0, 0] 100).2 = none) ∧
      (handleWorkerReading ⟨100, 90, 60, 80, 3⟩).isValid = true) :=
  ⟨by decide,
    invalid_payload_discarded 0 100 [90, 60, 0xFF, 0, 0, 0, 0, 80, 0, 3, 0, 0, 0]
      ⟨100, 90, 60, 80, 3⟩ (by decide)⟩

/-- C6, counterexample: the claim says the reassembler extracts exactly the
valid packets for every fragmentation of the stream. A single notification
carrying two complete valid packets refutes it: `handle_notification` extracts
at most one packet per call, so only the first packet is extracted and the
second stays in the buffer. -/
theorem framing_two_packets_one_fragment :
    ValidPacket [0x55, 0, 0, 0, 0, 0, 0, 0] ∧
    processFragments []
        [[0x55, 0, 0, 0, 0, 0, 0, 0, 0x55, 0, 0, 0, 0, 0, 0, 0]]
      = [[0x55, 0, 0, 0, 0, 0, 0, 0]] ∧
    [[0x55, 0, 0, 0, 0, 0, 0, 0]] ≠
      ([[0x55, 0, 0, 0, 0, 0, 0, 0], [0x55, 0, 0, 0, 0, 0, 0, 0]] :
        List (List Nat)) := by
  refine ⟨by decide, by decide, by decide⟩

/-- C6, amended: when each notification fragment consists of garbage free of
the sync byte 0x55 followed by exactly one complete valid packet, the
reassembler extracts exactly the valid packets, in order, with zero false
extractions; in general at most one packet is extracted per notification call,
so several complete packets arriving in one fragment are not all extracted
(see the counterexample). -/
theorem framing_aligned_extraction (frames : List (List Nat × List Nat))
    (hg : ∀ f ∈ frames, 0x55 ∉ f.1)
    (hp : ∀ f ∈ frames, ValidPacket f.2) :
    processFragments [] (frames.map fun f => f.1 ++ f.2)
      = frames.map Prod.snd := by
  induction frames with
  | nil => rfl
  | cons f fs ih =>
    obtain ⟨g, p⟩ := f
    have h1 : handleNotification [] (g ++ p) = ([], some p) :=
      handleNotification_exact g p (hg (g, p) (List.mem_cons_self _ _))
        (hp (g, p) (List.mem_cons_self _ _))
    simp only [List.map_cons, processFragments, h1]
    exact congrArg (p :: ·)
      (ih (fun e he => hg e (List.mem_cons_of_mem _ he))
          (fun e he => hp e (List.mem_cons_of_mem _ he)))

/-- Witness for `framing_aligned_extraction`: one fragment made of the garbage
byte 0x07 followed by a minimal valid packet. -/
theorem framing_aligned_extraction_witness :
    (∀ f ∈ [(([0x07], [0x55, 0, 0, 0, 0, 0, 0, 0]) : List Nat × List Nat)],
      0x55 ∉ f.1) ∧
    (∀ f ∈ [(([0x07], [0x55, 0, 0, 0, 0, 0, 0, 0]) : List Nat × List Nat)],
      ValidPacket f.2) ∧
    processFragments []
        ([(([0x07], [0x55, 0, 0, 0, 0, 0, 0, 0]) : List Nat × List Nat)].map
          fun f => f.1 ++ f.2)
      = [(([0x07], [0x55, 0, 0, 0, 0, 0, 0, 0]) : List Nat × List Nat)].map
          Prod.snd :=
  ⟨by decide, by decide,
    framing_aligned_extraction [([0x07], [0x55, 0, 0, 0, 0, 0, 0, 0])]
      (by decide) (by decide)⟩

/-- C8: emitted readings are rate limited to at most one per second. A payload
processed less than one second after `last_reading_time` is never emitted, and
any sequence of payload events whose times all lie within a window [a, a+1) of
one wall-clock second (in particular 100 packets within one second) produces
at most one emitted reading. -/
theorem reading_rate_limit (last a lastB : ℚ) (p : List Nat) (t : ℚ)
    (evs : List (List Nat × ℚ)) (hlt : t - lastB < 1)
    (hw : ∀ e ∈ evs, a ≤ e.2 ∧ e.2 < a + 1) :
    (processReading lastB p t).2 = none ∧ (runWorker last evs).2.length ≤ 1 := by
  refine ⟨by rw [processReading_below_interval lastB p t hlt], ?_⟩
  induction evs generalizing last with
  | nil => simp [runWorker]
  | cons e evs ih =>
    obtain ⟨q, u⟩ := e
    have hu : a ≤ u ∧ u < a + 1 := hw (q, u) (List.mem_cons_self _ _)
    have hwtail : ∀ e ∈ evs, a ≤ e.2 ∧ e.2 < a + 1 :=
      fun e he => hw e (List.mem_cons_of_mem _ he)
    rcases processReading_result last q u with hc | ⟨r, hc⟩
    · unfold runWorker
      rw [hc]
      exact ih last hwtail
    · have hzero : runWorker u evs = (u, []) := by
        refine runWorker_no_emit u evs (fun e he => ?_)
        have h5 := (hwtail e he).2
        have h6 := hu.1
        linarith
      unfold runWorker
      rw [hc]
      dsimp only
      rw [hzero]
      simp

/-- Witness for `reading_rate_limit`: 100 identical valid reading payloads all
delivered at the same wall-clock second. -/
theorem reading_rate_limit_witness :
    ((1000:ℚ) - (1999/2) < 1) ∧
    (∀ e ∈ List.replicate 100 (([98, 60, 1, 0, 0, 0, 0, 90, 0, 5] : List Nat),
        (1000:ℚ)), (1000:ℚ) ≤ e.2 ∧ e.2 < 1000 + 1) ∧
    ((processReading (1999/2) [98, 60, 1, 0, 0, 0, 0, 90, 0, 5] 1000).2 = none ∧
      (runWorker 0 (List.replicate 100
        (([98, 60, 1, 0, 0, 0, 0, 90, 0, 5] : List Nat), (1000:ℚ)))).2.length ≤ 1) :=
  ⟨by norm_num, by
      intro e he
      rw [List.eq_of_mem_replicate he]
      norm_num,
    reading_rate_limit 0 1000 (1999/2) [98, 60, 1, 0, 0, 0, 0, 90, 0, 5] 1000
      (List.replicate 100 (([98, 60, 1, 0, 0, 0, 0, 90, 0, 5] : List Nat), (1000:ℚ)))
      (by norm_num)
      (by
        intro e he
        rw [List.eq_of_mem_replicate he]
        norm_num)⟩

/-- C9: with the link connected and a valid current reading whose timestamp is
older than the 30-second staleness threshold, `_evaluate_state` returns
`Disconnected`, not `Normal`. -/
theorem stale_reading_disconnected (s : SMState) (now : ℚ) (silenced : Bool)
    (cfg : SMConfig) (freshId : String) (r : OxiReading)
    (hr : s.currentReading = some r) (hv : r.isValid = true)
    (hstale : 30 < now - r.timestamp) :
    (evaluateState s now true silenced cfg freshId).2.1
        = MonitorState.disconnected ∧
    (evaluateState s now true silenced cfg freshId).2.1
        ≠ MonitorState.normal := by
  have h : evaluateState s now true silenced cfg freshId
      = evaluateDisconnected s now := by
    simp [evaluateState, hr, hstale]
  constructor
  · rw [h]
    exact evaluateDisconnected_state s now
  · rw [h, evaluateDisconnected_state s now]
    decide

/-- Witness for `stale_reading_disconnected`: link connected, a valid reading
timestamped 31 seconds ago, staleness threshold 30 seconds. -/
theorem stale_reading_disconnected_witness :
    ((⟨0, 95, 70, 80, 0, true⟩ : OxiReading).isValid = true) ∧
    ((30:ℚ) < 31 - (⟨0, 95, 70, 80, 0, true⟩ : OxiReading).timestamp) ∧
    ((evaluateState
        ⟨MonitorState.normal, some ⟨0, 95, 70, 80, 0, true⟩, AVAPSState.off,
          none, none, none, false⟩
        31 true false ⟨90, 30⟩ "x").2.1 = MonitorState.disconnected ∧
      (evaluateState
        ⟨MonitorState.normal, some ⟨0, 95, 70, 80, 0, true⟩, AVAPSState.off,
          none, none, none, false⟩
        31 true false ⟨90, 30⟩ "x").2.1 ≠ MonitorState.normal) :=
  ⟨rfl, by norm_num,
    stale_reading_disconnected
      ⟨MonitorState.normal, some ⟨0, 95, 70, 80, 0, true⟩, AVAPSState.off,
        none, none, none, false⟩
      31 false ⟨90, 30⟩ "x" ⟨0, 95, 70, 80, 0, true⟩ rfl rfl (by norm_num)⟩

/-- C1, counterexample: the claim says a tick with an invalid (but connected,
non-stale) reading never resolves the open alarm alert while the machine is in
`Alarm` with an open low-SpO2 condition. In the source the invalid reading
makes `_evaluate_state` return `INITIALIZING`, and the resulting
`ALARM -> INITIALIZING` transition in `_handle_state_transition` resolves the
open alarm alert: with alarm alert "a1" open, low-SpO2 open since t=-40,
reading timestamped t=0 and the tick at t=10, the tick emits
`resolve_alert "a1"`. -/
theorem tick_invalid_reading_resolves_alarm :
    (evaluationTickCore
        ⟨MonitorState.alarm, some ⟨0, 85, 70, 80, 0, false⟩, AVAPSState.off,
          some (-40), some "a1", none, false⟩
        10 true false ⟨90, 30⟩ "f").2 = [SMEvent.resolveAlert "a1"] ∧
    ([SMEvent.resolveAlert "a1"] : List SMEvent) ≠ [] := by
  refine ⟨?_, by decide⟩
  norm_num +decide [evaluationTickCore, evaluateState, handleStateTransition]

/-- C1, amended: on a tick where the machine is in `LowSpo2Warning` or `Alarm`
with an open low-SpO2 condition and the current reading is invalid (link
connected, reading not stale), the low-SpO2 start time is not reset, but the
state evaluation returns `Initializing`; when the machine was in `Alarm` the
resulting transition resolves the open alarm alert and clears the alarm alert
id, while from `LowSpo2Warning` no alert-manager call is made. -/
theorem tick_invalid_reading_effects (s : SMState) (now : ℚ) (silenced : Bool)
    (cfg : SMConfig) (freshId : String) (r : OxiReading) (t0 : ℚ)
    (hst : s.currentState = MonitorState.lowSpo2Warning ∨
      s.currentState = MonitorState.alarm)
    (hr : s.currentReading = some r) (hv : r.isValid = false)
    (hfresh : now - r.timestamp ≤ 30) (hlow : s.lowSpo2Start = some t0) :
    (evaluationTickCore s now true silenced cfg freshId).1.lowSpo2Start
        = some t0 ∧
    (evaluationTickCore s now true silenced cfg freshId).1.currentState
        = MonitorState.initializing ∧
    (s.currentState = MonitorState.alarm →
      (evaluationTickCore s now true silenced cfg freshId).2
          = (s.alarmAlertId.map SMEvent.resolveAlert).toList ∧
      (evaluationTickCore s now true silenced cfg freshId).1.alarmAlertId
          = none) ∧
    (s.currentState = MonitorState.lowSpo2Warning →
      (evaluationTickCore s now true silenced cfg freshId).2 = [] ∧
      (evaluationTickCore s now true silenced cfg freshId).1.alarmAlertId
          = s.alarmAlertId) := by
  have hnl : ¬ 30 < now - r.timestamp := not_lt.mpr hfresh
  have heval : evaluateState s now true silenced cfg freshId
      = (s, MonitorState.initializing, []) := by
    simp [evaluateState, hr, hnl, hv]
  rcases hst with hst | hst <;>
    cases halarm : s.alarmAlertId <;>
      simp [evaluationTickCore, heval, handleStateTransition, hst, halarm, hlow]

/-- Concrete machine state for the `tick_invalid_reading_effects` witness: in
`Alarm` with the low-SpO2 condition open since t=-40 and alarm alert "w1"
open. -/
def alarmTickState : SMState :=
  ⟨MonitorState.alarm, some ⟨0, 85, 70, 80, 0, false⟩, AVAPSState.off,
    some (-40), some "w1", none, false⟩

/-- Witness for `tick_invalid_reading_effects` at `alarmTickState`, tick time
t=10 (reading 10 seconds old), alarm threshold 90%, alarm duration 30s. -/
theorem tick_invalid_reading_effects_witness :
    (alarmTickState.currentState = MonitorState.lowSpo2Warning ∨
      alarmTickState.currentState = MonitorState.alarm) ∧
    ((evaluationTickCore alarmTickState 10 true false ⟨90, 30⟩ "f").1.lowSpo2Start
        = some (-40) ∧
      (evaluationTickCore alarmTickState 10 true false ⟨90, 30⟩ "f").1.currentState
        = MonitorState.initializing ∧
      (alarmTickState.currentState = MonitorState.alarm →
        (evaluationTickCore alarmTickState 10 true false ⟨90, 30⟩ "f").2
            = (alarmTickState.alarmAlertId.map SMEvent.resolveAlert).toList ∧
        (evaluationTickCore alarmTickState 10 true false ⟨90, 30⟩ "f").1.alarmAlertId
            = none) ∧
      (alarmTickState.currentState = MonitorState.lowSpo2Warning →
        (evaluationTickCore alarmTickState 10 true false ⟨90, 30⟩ "f").2 = [] ∧
        (evaluationTickCore alarmTickState 10 true false ⟨90, 30⟩ "f").1.alarmAlertId
            = alarmTickState.alarmAlertId)) :=
  ⟨Or.inr rfl,
    tick_invalid_reading_effects alarmTickState 10 false ⟨90, 30⟩ "f"
      ⟨0, 85, 70, 80, 0, false⟩ (-40) (Or.inr rfl) rfl rfl (by norm_num) rfl⟩

/-- C10: `AlertManager.trigger_alarm` is idempotent per alert id: when the
alert's id is already active, the call leaves the active-alert set, the
audio-alarm state and the PagerDuty dedup-key map unchanged and returns the
dedup key previously stored for that id (or `none`). -/
theorem triggerAlarm_idempotent (s : AMState) (alert : Alert)
    (silenced hasAudio hasPagerduty : Bool) (pdResponse : Option String)
    (h : (s.activeAlerts.lookup alert.id).isSome = true) :
    triggerAlarm s alert silenced hasAudio hasPagerduty pdResponse
      = (s, s.pagerdutyKeys.lookup alert.id) := by
  simp [triggerAlarm, h]

/-- Alert used in the `triggerAlarm_idempotent` witness. -/
def exampleAlert : Alert :=
  ⟨"id1", "spo2_critical", "critical", "low oxygen", some 85, some 70⟩

/-- Alert-manager state used in the `triggerAlarm_idempotent` witness: alert
"id1" active with stored dedup key "k1". -/
def exampleAMState : AMState :=
  ⟨[("id1", exampleAlert)], [("id1", "k1")], true⟩

/-- Witness for `triggerAlarm_idempotent`: re-triggering the already active
alert "id1" changes nothing and returns the stored dedup key "k1", even though
PagerDuty would have answered with a different key "k2". -/
theorem triggerAlarm_idempotent_witness :
    ((exampleAMState.activeAlerts.lookup exampleAlert.id).isSome = true) ∧
    triggerAlarm exampleAMState exampleAlert false true true (some "k2")
      = (exampleAMState, some "k1") :=
  ⟨by decide,
    triggerAlarm_idempotent exampleAMState exampleAlert false true true
      (some "k2") (by decide)⟩

end O2Monitor
